import Mathlib

/-!
Verification of the browser-bot command dispatcher and proxy of
`otree/bots/browser.py` (otree-core).

The Python module is shallowly embedded: Python dicts become association
lists, the generator of pending submissions becomes the list of its
remaining elements, object mutation becomes explicit state passing on a
`Worker` record, and a raised exception becomes the `raised` constructor
of `PyResult`.  In Python a dict never holds two bindings of the same
key, so key-uniqueness (`Nodup` on the key column) appears as an explicit
hypothesis where a proof needs it.
-/

/-- A JSON-like atomic value.  The payload fields of a submission
descriptor (for example the value under `post_data`) are opaque to the
dispatcher, which only moves them around, so atoms suffice. -/
inductive JVal where
  | jbool (b : Bool)
  | jstr (s : String)
  | jnum (n : Int)
deriving DecidableEq, Repr

/-- A Python dict with string keys, as emitted and consumed by the
dispatcher (submission descriptors, response envelopes, kwargs). -/
abbrev Dict := List (String × JVal)

/-- Text rendering of an atom, as Python `str.format` would produce when
interpolating the value into an error message. -/
def jvalText : JVal → String
  | .jbool b => if b then "True" else "False"
  | .jstr s => s
  | .jnum n => toString n

/-- `l[k]` on an association list: the first binding of `k`, if any.
Models Python dict lookup (whose keys are unique). -/
def alookup {κ α : Type} [DecidableEq κ] : List (κ × α) → κ → Option α
  | [], _ => none
  | (k1, v) :: t, k => if k1 = k then some v else alookup t k

/-- `l[k] = v` on an association list: replace the first binding of `k`,
or append a fresh binding.  Models Python dict assignment. -/
def aset {κ α : Type} [DecidableEq κ] : List (κ × α) → κ → α → List (κ × α)
  | [], k, v => [(k, v)]
  | (k1, v1) :: t, k, v => if k1 = k then (k, v) :: t else (k1, v1) :: aset t k v

/-- `l.pop(k)` residue on an association list: drop the first binding of
`k`.  Models the removal effect of Python `dict.pop`. -/
def aerase {κ α : Type} [DecidableEq κ] : List (κ × α) → κ → List (κ × α)
  | [], _ => []
  | (k1, v1) :: t, k => if k1 = k then t else (k1, v1) :: aerase t k

/-- A Python exception value, as far as this module distinguishes them. -/
inductive PyExn where
  | keyError (k : JVal)
  | typeError (m : String)
  | valueError (m : String)
  | stopIteration (m : String)
  | exception (m : String)
  | assertionError (m : String)
  | doesNotExist (m : String)
deriving DecidableEq, Repr

/-- Outcome of running a Python call: a normal return value or a raised
exception. -/
inductive PyResult (α : Type) where
  | ok (v : α)
  | raised (e : PyExn)
deriving DecidableEq, Repr

/-- One `ParticipantBot` as the dispatcher sees it: the most recently
recorded page path and raw html (`bot.path`, `bot.html`, overwritten on
every prepare call) and the submissions its generator has not yet
yielded (`bot.submits_generator`, embedded as the list of its remaining
elements; `[]` is the exhausted generator). -/
structure PBot where
  path : JVal
  html : JVal
  submits : List Dict
deriving DecidableEq, Repr

/-- The dispatcher (`Worker`) state: `browser_bots` and
`prepared_submits` are its two dicts from the source.  `participants` is
the external participant store consulted by `initialize_participant`.
Modelled from the spec: the `Participant` ORM model and the
`ParticipantBot` construction live outside this repository slice, and
the spec describes them as a participant lookup by identifier that fails
with not-found if absent, plus a bot-logic object producing a lazy
sequence of submission descriptors; so each known participant code maps
to the sequence its bot will yield. -/
structure Worker where
  participants : List (JVal × List Dict)
  browser_bots : List (JVal × PBot)
  prepared_submits : List (JVal × Dict)
deriving DecidableEq, Repr

/-- The `request_error` message built by `Worker.prepare_next_submit`
when the participant is not loaded (with `SESSIONS_PRUNE_LIMIT = 50`
interpolated, as in the source). -/
def participantNotLoadedMsg (pc : JVal) : String :=
  "Participant " ++ jvalText pc ++ " not loaded in botworker. " ++
  "The botworker only stores the most recent 50 sessions, " ++
  "and discards older sessions. Or, maybe the botworker " ++
  "was restarted after the session was created."

/-- `Worker.prepare_next_submit(participant_code, path, html)`.  Returns
the mutated worker state together with the returned value or the raised
exception.  Mirrors the source line by line: missing bot gives a
`request_error` dict; then `bot.path`/`bot.html` are overwritten; under
the lock, an existing cache entry answers `{}` at once; otherwise the
generator is advanced, exhaustion stores and returns `{}`, and a yielded
descriptor has `page_class` popped (raising `KeyError` if absent, after
the generator has already advanced) before being cached and returned. -/
def Worker.prepare_next_submit (w : Worker) (pc path html : JVal) :
    Worker × PyResult Dict :=
  match alookup w.browser_bots pc with
  | none =>
      (w, .ok [("request_error", .jstr (participantNotLoadedMsg pc))])
  | some bot =>
      let bot1 : PBot := { bot with path := path, html := html }
      let w1 : Worker := { w with browser_bots := aset w.browser_bots pc bot1 }
      if (alookup w1.prepared_submits pc).isSome then
        (w1, .ok [])
      else
        match bot1.submits with
        | [] =>
            ({ w1 with prepared_submits := aset w1.prepared_submits pc [] },
             .ok [])
        | s :: rest =>
            let bot2 : PBot := { bot1 with submits := rest }
            let w2 : Worker :=
              { w1 with browser_bots := aset w1.browser_bots pc bot2 }
            match alookup s "page_class" with
            | none => (w2, .raised (.keyError (.jstr "page_class")))
            | some _ =>
                let s2 : Dict := aerase s "page_class"
                ({ w2 with prepared_submits := aset w2.prepared_submits pc s2 },
                 .ok s2)

/-- `Worker.consume_next_submit(participant_code)`: pop the cache entry
(the raised `KeyError` of `dict.pop` on a missing key propagates), then
strip `page_class` from the popped value with a default (never raises on
its absence). -/
def Worker.consume_next_submit (w : Worker) (pc : JVal) :
    Worker × PyResult Dict :=
  match alookup w.prepared_submits pc with
  | none => (w, .raised (.keyError pc))
  | some submission =>
      ({ w with prepared_submits := aerase w.prepared_submits pc },
       .ok (aerase submission "page_class"))

/-- `Worker.clear_all()`: `self.browser_bots.clear()` and nothing else. -/
def Worker.clear_all (w : Worker) : Worker :=
  { w with browser_bots := [] }

/-- `Worker.initialize_participant(participant_code)`: look the
participant up in the external store (not-found raises), then install a
fresh `ParticipantBot` whose generator is the submission
sequence of that participant (`prune` is a no-op in the source).  The initial `path`/`html`
of a fresh bot are unobservable before the first prepare call; they are
embedded as empty strings. -/
def Worker.initialize_participant (w : Worker) (pc : JVal) :
    Worker × PyResult Dict :=
  match alookup w.participants pc with
  | none => (w, .raised (.doesNotExist "Participant matching query does not exist."))
  | some submits =>
      let bot : PBot := ⟨.jstr "", .jstr "", submits⟩
      ({ w with browser_bots := aset w.browser_bots pc bot },
       .ok [("ok", .jbool true)])

/-- `Worker.ping(*args, **kwargs)`: immediate acknowledgement, state
untouched. -/
def Worker.ping (w : Worker) : Worker × PyResult Dict :=
  (w, .ok [("ok", .jbool true)])

/-! ### The receive loop (`Worker.redis_listen`)

One loop iteration processes one message popped from a listen channel.
A message is modelled after `json.loads`-shapes: bytes that fail to
decode, a decoded non-object, or a decoded object whose field values are
atoms, lists of atoms, or string-keyed dicts of atoms (the shapes the
protocol uses for `command`, `response_key`, `args` and `kwargs`). -/

/-- A value inside a decoded wire message. -/
inductive MVal where
  | atom (v : JVal)
  | vlist (l : List JVal)
  | vdict (d : Dict)
deriving DecidableEq, Repr

/-- One message as popped from a listen channel, seen through
`json.loads`. -/
inductive Wire where
  | invalid
  | nonobj (v : JVal)
  | obj (fields : List (String × MVal))
deriving DecidableEq, Repr

/-- Outcome of one iteration of `redis_listen` on one message: either an
exception escaped the loop (crashing it), or exactly one response
envelope was pushed to one response key. -/
inductive StepResult where
  | crash (e : PyExn)
  | pushed (w : Worker) (key : MVal) (payload : Dict)
deriving DecidableEq, Repr

/-- The response key a loop iteration pushed its single envelope to, if
it pushed one at all. -/
def StepResult.pushedTo : StepResult → Option MVal
  | .crash _ => none
  | .pushed _ k _ => some k

/-- Python call binding for a method with the named positional
parameters `params`, called as `method(*args, **kwargs)`: positional
arguments fill the first parameters, keywords the rest; a duplicate,
missing or unexpected argument is a `TypeError` (`none`). -/
def bindParams (params : List String) (args : List JVal) (kwargs : Dict) :
    Option (List JVal) :=
  if params.length < args.length then none
  else if (params.take args.length).any (fun p => (alookup kwargs p).isSome) then none
  else if kwargs.any (fun kv => ¬ params.contains kv.1) then none
  else
    match (params.drop args.length).mapM (fun p => alookup kwargs p) with
    | none => none
    | some kwVals => some (args ++ kwVals)

/-- `Worker.get_method` followed by `method(*args, **kwargs)`: the fixed
closed command table of the dispatcher.  An unknown command name is the
`KeyError` of the table lookup; an argument-binding failure is the
`TypeError` Python raises at the call. -/
def Worker.dispatch (w : Worker) (cmd : String) (args : List JVal)
    (kwargs : Dict) : Worker × PyResult Dict :=
  if cmd = "prepare_next_submit" then
    match bindParams ["participant_code", "path", "html"] args kwargs with
    | some [pc, path, html] => w.prepare_next_submit pc path html
    | _ => (w, .raised (.typeError "prepare_next_submit: bad arguments"))
  else if cmd = "consume_next_submit" then
    match bindParams ["participant_code"] args kwargs with
    | some [pc] => w.consume_next_submit pc
    | _ => (w, .raised (.typeError "consume_next_submit: bad arguments"))
  else if cmd = "initialize_participant" then
    match bindParams ["participant_code"] args kwargs with
    | some [pc] => w.initialize_participant pc
    | _ => (w, .raised (.typeError "initialize_participant: bad arguments"))
  else if cmd = "clear_all" then
    match bindParams [] args kwargs with
    | some _ => (w.clear_all, .ok [])
    | _ => (w, .raised (.typeError "clear_all: bad arguments"))
  else if cmd = "ping" then
    w.ping
  else
    (w, .raised (.keyError (.jstr cmd)))

/-- `repr(exc)` as embedded in the `response_error` field. -/
def reprExn : PyExn → String
  | .keyError k => "KeyError(" ++ jvalText k ++ ")"
  | .typeError m => "TypeError(" ++ m ++ ")"
  | .valueError m => "ValueError(" ++ m ++ ")"
  | .stopIteration m => "StopIteration(" ++ m ++ ")"
  | .exception m => "Exception(" ++ m ++ ")"
  | .assertionError m => "AssertionError(" ++ m ++ ")"
  | .doesNotExist m => "DoesNotExist(" ++ m ++ ")"

/-- The body of the `try` block of one `redis_listen` iteration:
extract `command` (its `KeyError` is caught), default `args`/`kwargs`,
look the command up and invoke it.  Every failure is a `PyResult.raised`
value, never an escape. -/
def Worker.tryBlock (w : Worker) (fields : List (String × MVal)) :
    Worker × PyResult Dict :=
  match alookup fields "command" with
  | none => (w, .raised (.keyError (.jstr "command")))
  | some cmdv =>
      let argsv := (alookup fields "args").getD (.vlist [])
      let kwargsv := (alookup fields "kwargs").getD (.vdict [])
      match cmdv, argsv, kwargsv with
      | .atom (.jstr cmd), .vlist args, .vdict kwargs =>
          w.dispatch cmd args kwargs
      | _, _, _ => (w, .raised (.typeError "malformed args or command"))

/-- `json.dumps(retval or {})` of the `finally` block: a normal return
value is pushed as is; a caught exception is pushed as the structured
failure envelope with `response_error` and `traceback`. -/
def encodeRetval : PyResult Dict → Dict
  | .ok d => d
  | .raised e =>
      [("response_error", .jstr (reprExn e)),
       ("traceback", .jstr ("Traceback: " ++ reprExn e))]

/-- One iteration of `Worker.redis_listen` on one popped message.
`json.loads` and `message[` followed by `response_key]` run before the
`try` block, so their exceptions escape the loop (`crash`); from the
`try` block on, every exception is caught and the `finally` block pushes
exactly one envelope to the response key of the message. -/
def Worker.handleMessage (w : Worker) (m : Wire) : StepResult :=
  match m with
  | .invalid => .crash (.valueError "Expecting value: line 1 column 1")
  | .nonobj _ => .crash (.typeError "string indices must be integers")
  | .obj fields =>
      match alookup fields "response_key" with
      | none => .crash (.keyError (.jstr "response_key"))
      | some rk =>
          let tr := w.tryBlock fields
          .pushed tr.1 rk (encodeRetval tr.2)

/-! ### The client-side proxy (`EphemeralBrowserBot` and module-level
`ping`)

The proxy pushes a request and blocks on its response key with a
timeout.  The message channel is the sole external dependency; each
round trip is embedded by the value `blpop` returns for it: `none` is a
timeout, `some d` is the decoded envelope the dispatcher pushed. -/

/-- The remediation message of the module-level `ping` helper (raised
when the liveness probe itself times out). -/
def pingFailMsg : String :=
  "Ping to botworker failed. " ++
  "If you want to use browser bots, " ++
  "you need to be running the botworker." ++
  "Otherwise, set (\"use_browser_bots\": False) in the session config " ++
  "in settings.py."

/-- Module-level `ping(redis_conn, participant_code)`: push a ping
request, block one second on the ping response key, raise the
remediation message on timeout. -/
def ping (pingBlpop : Option Dict) : PyResult Unit :=
  match pingBlpop with
  | none => .raised (.exception pingFailMsg)
  | some _ => .ok ()

/-- The message of the worker-unresponsive diagnosis: the probe
succeeded but the original call had no answer. -/
def noSubmissionMsg : String :=
  "botworker is running but did not return a submission."

/-- `EphemeralBrowserBot.prepare_next_submit_redis(html)`, embedded over
the channel outcomes: `blpopResult` is what `blpop` returned on the
response key of this call within the 3 second budget, `pingBlpop` what
`blpop` returned for the subsequent probe (consulted only on timeout). -/
def prepare_next_submit_redis (blpopResult : Option Dict)
    (pingBlpop : Option Dict) : PyResult Dict :=
  match blpopResult with
  | some d => .ok d
  | none =>
      match ping pingBlpop with
      | .raised e => .raised e
      | .ok _ => .raised (.exception noSubmissionMsg)

/-- `EphemeralBrowserBot.get_next_post_data_redis()`, embedded the same
way (1 second budget). -/
def get_next_post_data_redis (blpopResult : Option Dict)
    (pingBlpop : Option Dict) : PyResult Dict :=
  match blpopResult with
  | some d => .ok d
  | none =>
      match ping pingBlpop with
      | .raised e => .raised e
      | .ok _ => .raised (.exception noSubmissionMsg)

/-- The tail of `EphemeralBrowserBot.get_next_post_data()` applied to
the submission dict obtained from `consume_next_submit`: a truthy
(non-empty) dict yields its `post_data` field, the empty placeholder
raises the terminal `StopIteration` signal. -/
def get_next_post_data (submission : Dict) : PyResult JVal :=
  if submission.isEmpty then .raised (.stopIteration "No more submits")
  else
    match alookup submission "post_data" with
    | some v => .ok v
    | none => .raised (.keyError (.jstr "post_data"))

/-! ### Channel keys and the administrative flush

`make_redis_key` builds the sharded input-channel key
`otree-bots-` followed by the first character of the participant code;
`redis_flush_bots` deletes every key matching the Redis glob pattern
built as the fixed prefix `otree-bots` immediately followed by a
character class over the given range and a trailing `*`. -/

/-- `make_redis_key(participant_code)`: the input-channel key; indexing
an empty string raises, hence the `Option`. -/
def make_redis_key (pc : String) : Option String :=
  match pc.toList with
  | [] => none
  | c :: _ => some ("otree-bots" ++ "-" ++ String.mk [c])

/-- One token of a Redis glob pattern: a literal character, a character
class, or a star. -/
inductive GTok where
  | lit (c : Char)
  | cls (cs : List Char)
  | star
deriving DecidableEq, Repr

/-- Fuelled Redis glob matcher (the fuel only serves structural
recursion; `globMatch` supplies enough of it to be exact). -/
def globMatchF : Nat → List GTok → List Char → Bool
  | 0, _, _ => false
  | _ + 1, [], s => s.isEmpty
  | f + 1, .lit c :: p, s =>
      match s with
      | [] => false
      | d :: t => c = d && globMatchF f p t
  | f + 1, .cls cs :: p, s =>
      match s with
      | [] => false
      | d :: t => cs.contains d && globMatchF f p t
  | f + 1, .star :: p, s =>
      globMatchF f p s ||
        match s with
        | [] => false
        | _ :: t => globMatchF f (.star :: p) t

/-- Redis glob matching of a pattern against a key. -/
def globMatch (p : List GTok) (s : List Char) : Bool :=
  globMatchF (p.length + s.length + 1) p s

/-- The deletion pattern of `redis_flush_bots(redis_conn, char_range)`:
the literal characters of `otree-bots`, then the character class
`[char_range]`, then `*` — note there is no literal `-` between the
prefix and the class. -/
def flushPattern (char_range : List Char) : List GTok :=
  ("otree-bots".toList.map GTok.lit) ++ [GTok.cls char_range, GTok.star]

/-- Whether `redis_flush_bots` run over `char_range` deletes the given
key: exactly the keys matching its scan pattern. -/
def redis_flush_bots_deletes (char_range : List Char) (key : String) : Bool :=
  globMatch (flushPattern char_range) key.toList

/-- The payload a loop iteration pushed, if it pushed one. -/
def StepResult.payloadOf : StepResult → Option Dict
  | .crash _ => none
  | .pushed _ _ d => some d

/-- The wire message `EphemeralBrowserBot.prepare_next_submit_redis`
pushes onto the input channel for participant `pc`, with response key
`rkv`. -/
def prepareMsg (pc path html rkv : JVal) : Wire :=
  .obj [("command", .atom (.jstr "prepare_next_submit")),
        ("kwargs", .vdict [("participant_code", pc), ("path", path), ("html", html)]),
        ("response_key", .atom rkv)]

/-! ### Association-list facts -/

theorem alookup_aset_self {κ α : Type} [DecidableEq κ]
    (l : List (κ × α)) (k : κ) (v : α) : alookup (aset l k v) k = some v := by
  induction l with
  | nil => simp [aset, alookup]
  | cons hd t ih =>
      obtain ⟨k1, v1⟩ := hd
      by_cases hk : k1 = k
      · simp [aset, hk, alookup]
      · simp [aset, hk, alookup, ih]

theorem alookup_eq_none_of_not_mem {κ α : Type} [DecidableEq κ]
    (l : List (κ × α)) (k : κ) (h : k ∉ l.map Prod.fst) : alookup l k = none := by
  induction l with
  | nil => rfl
  | cons hd t ih =>
      obtain ⟨k1, v1⟩ := hd
      simp only [List.map_cons, List.mem_cons] at h
      push_neg at h
      have hk : ¬ k1 = k := fun e => h.1 e.symm
      simp [alookup, hk, ih h.2]

theorem alookup_aerase_self {κ α : Type} [DecidableEq κ]
    (l : List (κ × α)) (k : κ) (h : (l.map Prod.fst).Nodup) :
    alookup (aerase l k) k = none := by
  induction l with
  | nil => rfl
  | cons hd t ih =>
      obtain ⟨k1, v1⟩ := hd
      simp only [List.map_cons, List.nodup_cons] at h
      by_cases hk : k1 = k
      · subst hk
        simpa [aerase] using alookup_eq_none_of_not_mem t k1 h.1
      · simp [aerase, hk, alookup, ih h.2]

theorem aerase_of_lookup_none {κ α : Type} [DecidableEq κ]
    (l : List (κ × α)) (k : κ) (h : alookup l k = none) : aerase l k = l := by
  induction l with
  | nil => rfl
  | cons hd t ih =>
      obtain ⟨k1, v1⟩ := hd
      by_cases hk : k1 = k
      · simp [alookup, hk] at h
      · simp only [alookup, hk, if_false] at h
        simp [aerase, hk, ih h]

theorem aerase_eq_filter {κ α : Type} [DecidableEq κ]
    (l : List (κ × α)) (k : κ) (h : (l.map Prod.fst).Nodup) :
    aerase l k = l.filter (fun kv => decide (kv.1 ≠ k)) := by
  induction l with
  | nil => rfl
  | cons hd t ih =>
      obtain ⟨k1, v1⟩ := hd
      simp only [List.map_cons, List.nodup_cons] at h
      by_cases hk : k1 = k
      · subst hk
        have hfix : t.filter (fun kv => !decide (kv.1 = k1)) = t := by
          apply List.filter_eq_self.mpr
          intro a ha
          simp only [Bool.not_eq_true', decide_eq_false_iff_not]
          intro hEq
          exact h.1 (hEq ▸ List.mem_map_of_mem Prod.fst ha)
        simp [aerase, List.filter, hfix]
      · simp [aerase, hk, List.filter, hk, ih h.2]

/-! ### Branch characterizations of the dispatcher operations -/

/-- `prepare_next_submit` with no loaded bot: the early `request_error`
return, state untouched. -/
theorem prepare_no_bot (w : Worker) (pc p h : JVal)
    (hb : alookup w.browser_bots pc = none) :
    w.prepare_next_submit pc p h =
      (w, .ok [("request_error", .jstr (participantNotLoadedMsg pc))]) := by
  unfold Worker.prepare_next_submit
  rw [hb]

/-- `prepare_next_submit` when a cache entry already exists: only
`bot.path`/`bot.html` are overwritten, the generator and cache are left
alone, and the empty acknowledgement is returned. -/
theorem prepare_cache_hit (w : Worker) (pc p h : JVal) (bot : PBot) (entry : Dict)
    (hb : alookup w.browser_bots pc = some bot)
    (hc : alookup w.prepared_submits pc = some entry) :
    w.prepare_next_submit pc p h =
      ({ w with browser_bots := aset w.browser_bots pc ⟨p, h, bot.submits⟩ },
       .ok []) := by
  unfold Worker.prepare_next_submit
  rw [hb]
  dsimp only
  rw [hc]
  rfl

/-- `prepare_next_submit` on an exhausted generator with no cache
entry: the empty placeholder is cached and returned. -/
theorem prepare_exhausted (w : Worker) (pc p h : JVal) (bot : PBot)
    (hb : alookup w.browser_bots pc = some bot)
    (hc : alookup w.prepared_submits pc = none)
    (hs : bot.submits = []) :
    w.prepare_next_submit pc p h =
      ({ w with browser_bots := aset w.browser_bots pc ⟨p, h, bot.submits⟩,
                prepared_submits := aset w.prepared_submits pc [] },
       .ok []) := by
  unfold Worker.prepare_next_submit
  rw [hb]
  dsimp only
  rw [hc, hs]
  rfl

/-- `prepare_next_submit` advancing the generator onto a descriptor that
carries a `page_class` tag: the generator moves one step, the stripped
descriptor is cached and returned. -/
theorem prepare_yield (w : Worker) (pc p h : JVal) (bot : PBot)
    (s : Dict) (rest : List Dict) (tag : JVal)
    (hb : alookup w.browser_bots pc = some bot)
    (hc : alookup w.prepared_submits pc = none)
    (hs : bot.submits = s :: rest)
    (hp : alookup s "page_class" = some tag) :
    w.prepare_next_submit pc p h =
      ({ w with
          browser_bots :=
            aset (aset w.browser_bots pc ⟨p, h, bot.submits⟩) pc ⟨p, h, rest⟩,
          prepared_submits := aset w.prepared_submits pc (aerase s "page_class") },
       .ok (aerase s "page_class")) := by
  unfold Worker.prepare_next_submit
  rw [hb]
  dsimp only
  rw [hc, hs]
  dsimp only
  rw [hp]
  rfl

/-- `prepare_next_submit` advancing the generator onto a descriptor with
no `page_class` tag: the unconditional `pop` raises `KeyError` after the
generator has already advanced, and no cache entry is created. -/
theorem prepare_missing_page_class (w : Worker) (pc p h : JVal) (bot : PBot)
    (s : Dict) (rest : List Dict)
    (hb : alookup w.browser_bots pc = some bot)
    (hc : alookup w.prepared_submits pc = none)
    (hs : bot.submits = s :: rest)
    (hp : alookup s "page_class" = none) :
    w.prepare_next_submit pc p h =
      ({ w with
          browser_bots :=
            aset (aset w.browser_bots pc ⟨p, h, bot.submits⟩) pc ⟨p, h, rest⟩ },
       .raised (.keyError (.jstr "page_class"))) := by
  unfold Worker.prepare_next_submit
  rw [hb]
  dsimp only
  rw [hc, hs]
  dsimp only
  rw [hp]
  rfl

/-- `consume_next_submit` with an entry present: pop it and strip the
tag with a default. -/
theorem consume_entry (w : Worker) (pc : JVal) (e : Dict)
    (he : alookup w.prepared_submits pc = some e) :
    w.consume_next_submit pc =
      ({ w with prepared_submits := aerase w.prepared_submits pc },
       .ok (aerase e "page_class")) := by
  unfold Worker.consume_next_submit
  rw [he]

/-- `consume_next_submit` with no entry: `dict.pop` raises `KeyError`. -/
theorem consume_no_entry (w : Worker) (pc : JVal)
    (he : alookup w.prepared_submits pc = none) :
    w.consume_next_submit pc = (w, .raised (.keyError pc)) := by
  unfold Worker.consume_next_submit
  rw [he]

/-! ### The claims -/

/-- C3: for every client identifier with no loaded session,
`prepare_next_submit` returns a `request_error` result carrying the
remediation message (a value, not a raised exception), and the worker
state — in particular every generator and the submission cache — is
returned unchanged. -/
theorem prepare_unknown_client_request_error (w : Worker) (pc p h : JVal)
    (hb : alookup w.browser_bots pc = none) :
    w.prepare_next_submit pc p h =
      (w, .ok [("request_error", .jstr (participantNotLoadedMsg pc))]) :=
  prepare_no_bot w pc p h hb

theorem prepare_unknown_client_request_error_witness :
    (Worker.mk [] [] []).prepare_next_submit
        (.jstr "zz9") (.jstr "/p1") (.jstr "<html/>") =
      (Worker.mk [] [] [],
       .ok [("request_error", .jstr (participantNotLoadedMsg (.jstr "zz9")))]) :=
  prepare_unknown_client_request_error (Worker.mk [] [] [])
    (.jstr "zz9") (.jstr "/p1") (.jstr "<html/>") rfl

/-- C7 counterexample: `clear_all` on a worker holding one prepared
submission leaves the submission cache non-empty, so it is false that
after `clear_all` the session map and the submission cache are both
empty. -/
theorem clear_all_leaves_cache_cex :
    ¬ ((Worker.clear_all
          (Worker.mk [] [] [(.jstr "abc123", [("post_data", .jstr "x")])])).browser_bots = [] ∧
       (Worker.clear_all
          (Worker.mk [] [] [(.jstr "abc123", [("post_data", .jstr "x")])])).prepared_submits = []) := by
  decide

/-- C7 amended: `clear_all` discards every Bot Session — the session map
is empty afterwards, in one shot, never failing halfway — but it does not
touch the prepared-submission cache, which is returned exactly as it
was. -/
theorem clear_all_clears_sessions_only (w : Worker) :
    w.clear_all.browser_bots = [] ∧
    w.clear_all.prepared_submits = w.prepared_submits :=
  ⟨rfl, rfl⟩

theorem clear_all_clears_sessions_only_witness :
    (Worker.mk [] [] [(.jstr "abc123", [("post_data", JVal.jstr "x")])]).clear_all.browser_bots = [] ∧
    (Worker.mk [] [] [(.jstr "abc123", [("post_data", JVal.jstr "x")])]).clear_all.prepared_submits =
      (Worker.mk [] [] [(.jstr "abc123", [("post_data", JVal.jstr "x")])]).prepared_submits :=
  clear_all_clears_sessions_only (Worker.mk [] [] [(.jstr "abc123", [("post_data", JVal.jstr "x")])])

/-- C8: evaluation of the administrative flush at a failing input.
`make_redis_key` builds the input-channel key `otree-bots-a` for a
client identifier starting with `a`, yet the deletion pattern of
`redis_flush_bots` over a character range containing `a` does not match
that key (nor any response key): the pattern requires a range character
immediately after the fixed prefix, where every input-channel key has
the `-` separator.  The last conjunct shows what the pattern does match:
keys missing the separator. -/
theorem redis_flush_bots_pattern_mismatch :
    make_redis_key "abc123" = some "otree-bots-a" ∧
    redis_flush_bots_deletes
      "abcdefghijklmnopqrstuvwxyz0123456789".toList "otree-bots-a" = false ∧
    redis_flush_bots_deletes
      "abcdefghijklmnopqrstuvwxyz0123456789".toList "otree-bots-ping-abc123" = false ∧
    redis_flush_bots_deletes
      "abcdefghijklmnopqrstuvwxyz0123456789".toList "otree-botsa-tail" = true := by
  decide

/-- C9: when a proxy round trip times out (its `blpop` yields nothing),
both `prepare_next_submit_redis` and `get_next_post_data_redis` probe
the worker with `ping` first: a probe timeout raises the
worker-unreachable error with the remediation message, while a live
probe raises the distinct worker-unresponsive error. -/
theorem proxy_timeout_diagnosis (d : Dict) :
    prepare_next_submit_redis none none = .raised (.exception pingFailMsg) ∧
    prepare_next_submit_redis none (some d) = .raised (.exception noSubmissionMsg) ∧
    get_next_post_data_redis none none = .raised (.exception pingFailMsg) ∧
    get_next_post_data_redis none (some d) = .raised (.exception noSubmissionMsg) ∧
    pingFailMsg ≠ noSubmissionMsg := by
  refine ⟨rfl, rfl, rfl, rfl, ?_⟩
  decide

theorem proxy_timeout_diagnosis_witness :
    prepare_next_submit_redis none none = .raised (.exception pingFailMsg) ∧
    prepare_next_submit_redis none (some [("ok", JVal.jbool true)]) =
      .raised (.exception noSubmissionMsg) ∧
    get_next_post_data_redis none none = .raised (.exception pingFailMsg) ∧
    get_next_post_data_redis none (some [("ok", JVal.jbool true)]) =
      .raised (.exception noSubmissionMsg) ∧
    pingFailMsg ≠ noSubmissionMsg :=
  proxy_timeout_diagnosis [("ok", JVal.jbool true)]

/-- C2 counterexample: a message that fails to decode, and one that
decodes without a `response_key` field, make the loop iteration crash
(the exception escapes) with no response envelope pushed — so it is
false that every failure during decode is caught and answered. -/
theorem redis_listen_decode_crash_cex :
    (Worker.mk [] [] []).handleMessage .invalid =
      .crash (.valueError "Expecting value: line 1 column 1") ∧
    (Worker.mk [] [] []).handleMessage (.obj [("command", .atom (.jstr "ping"))]) =
      .crash (.keyError (.jstr "response_key")) ∧
    ((Worker.mk [] [] []).handleMessage .invalid).pushedTo = none := by
  exact ⟨rfl, rfl, rfl⟩

/-- C2 amended: for every message that decodes to an object carrying a
`response_key`, the iteration never crashes: every failure from that
point on — unknown command, argument mismatch, or an exception raised
by the invoked operation — is caught, and exactly one response envelope
is pushed to the response key of the message.  Messages that fail JSON
decoding or lack a `response_key` instead propagate their exception out
of the loop. -/
theorem redis_listen_always_responds (w : Worker)
    (fields : List (String × MVal)) (rk : MVal)
    (hrk : alookup fields "response_key" = some rk) :
    (w.handleMessage (.obj fields)).pushedTo = some rk := by
  unfold Worker.handleMessage
  dsimp only
  rw [hrk]
  rfl

theorem redis_listen_always_responds_witness :
    ((Worker.mk [] [] []).handleMessage
        (.obj [("command", .atom (.jstr "bogus_command")),
               ("response_key", .atom (.jstr "rk1"))])).pushedTo =
      some (.atom (.jstr "rk1")) :=
  redis_listen_always_responds (Worker.mk [] [] [])
    [("command", .atom (.jstr "bogus_command")),
     ("response_key", .atom (.jstr "rk1"))]
    (.atom (.jstr "rk1")) rfl

/-- C4: `consume_next_submit` removes exactly the entry it returns
(stripped of the tag), and a second `consume_next_submit` for the same
identifier without an intervening prepare propagates the raised
`KeyError` rather than returning a normal result. -/
theorem consume_removes_exactly_one_entry (w : Worker) (pc : JVal) (e : Dict)
    (hnd : (w.prepared_submits.map Prod.fst).Nodup)
    (he : alookup w.prepared_submits pc = some e) :
    w.consume_next_submit pc =
      ({ w with prepared_submits := aerase w.prepared_submits pc },
       .ok (aerase e "page_class")) ∧
    Worker.consume_next_submit
        { w with prepared_submits := aerase w.prepared_submits pc } pc =
      ({ w with prepared_submits := aerase w.prepared_submits pc },
       .raised (.keyError pc)) :=
  ⟨consume_entry w pc e he,
   consume_no_entry _ pc (alookup_aerase_self _ _ hnd)⟩

/-- Worker holding one prepared submission for `abc123`, used to witness
the consume contract. -/
def sampleWorkerC4 : Worker :=
  ⟨[], [],
   [(.jstr "abc123", [("page_class", .jstr "Cls"), ("post_data", .jstr "f=1")])]⟩

theorem consume_removes_exactly_one_entry_witness :
    sampleWorkerC4.consume_next_submit (.jstr "abc123") =
      ({ sampleWorkerC4 with
          prepared_submits := aerase sampleWorkerC4.prepared_submits (.jstr "abc123") },
       .ok (aerase [("page_class", .jstr "Cls"), ("post_data", .jstr "f=1")] "page_class")) ∧
    Worker.consume_next_submit
        { sampleWorkerC4 with
            prepared_submits := aerase sampleWorkerC4.prepared_submits (.jstr "abc123") }
        (.jstr "abc123") =
      ({ sampleWorkerC4 with
          prepared_submits := aerase sampleWorkerC4.prepared_submits (.jstr "abc123") },
       .raised (.keyError (.jstr "abc123"))) :=
  consume_removes_exactly_one_entry sampleWorkerC4 (.jstr "abc123")
    [("page_class", .jstr "Cls"), ("post_data", .jstr "f=1")] (by decide) rfl

/-- C5: round-trip of a generator-yielded descriptor that carries the
`page_class` tag: the value `prepare_next_submit` returns and caches,
and the value `consume_next_submit` later hands back, all equal the
descriptor with the tag erased; the tag is absent from that value and
every other field is preserved unchanged (the value is exactly the
descriptor restricted to its non-tag fields). -/
theorem round_trip_strips_page_class (w : Worker) (pc p h : JVal) (bot : PBot)
    (s : Dict) (rest : List Dict) (tag : JVal)
    (hb : alookup w.browser_bots pc = some bot)
    (hc : alookup w.prepared_submits pc = none)
    (hs : bot.submits = s :: rest)
    (hnd : (s.map Prod.fst).Nodup)
    (hp : alookup s "page_class" = some tag) :
    (w.prepare_next_submit pc p h).2 = .ok (aerase s "page_class") ∧
    alookup (w.prepare_next_submit pc p h).1.prepared_submits pc =
      some (aerase s "page_class") ∧
    ((w.prepare_next_submit pc p h).1.consume_next_submit pc).2 =
      .ok (aerase s "page_class") ∧
    alookup (aerase s "page_class") "page_class" = none ∧
    aerase s "page_class" = s.filter (fun kv => decide (kv.1 ≠ "page_class")) := by
  have h1 := prepare_yield w pc p h bot s rest tag hb hc hs hp
  rw [h1]
  refine ⟨rfl, ?_, ?_, alookup_aerase_self s _ hnd, aerase_eq_filter s _ hnd⟩
  · exact alookup_aset_self _ _ _
  · have hcs := consume_entry
      { w with
          browser_bots :=
            aset (aset w.browser_bots pc ⟨p, h, bot.submits⟩) pc ⟨p, h, rest⟩,
          prepared_submits := aset w.prepared_submits pc (aerase s "page_class") }
      pc (aerase s "page_class") (alookup_aset_self _ _ _)
    rw [hcs]
    dsimp only
    rw [aerase_of_lookup_none _ _ (alookup_aerase_self s "page_class" hnd)]

/-- A tagged submission descriptor, as the generator would yield it. -/
def sampleSubmitC5 : Dict :=
  [("page_class", JVal.jstr "Cls"), ("post_data", JVal.jstr "f=1")]

/-- Worker with one loaded bot for `p5` whose generator will yield one
tagged descriptor, used to witness the round trip. -/
def sampleWorkerC5 : Worker :=
  ⟨[], [(.jstr "p5", ⟨.jstr "", .jstr "", [sampleSubmitC5]⟩)], []⟩

theorem round_trip_strips_page_class_witness :
    (sampleWorkerC5.prepare_next_submit (.jstr "p5") (.jstr "/pg") (.jstr "<html/>")).2 =
      .ok (aerase sampleSubmitC5 "page_class") ∧
    alookup (sampleWorkerC5.prepare_next_submit
        (.jstr "p5") (.jstr "/pg") (.jstr "<html/>")).1.prepared_submits (.jstr "p5") =
      some (aerase sampleSubmitC5 "page_class") ∧
    ((sampleWorkerC5.prepare_next_submit
        (.jstr "p5") (.jstr "/pg") (.jstr "<html/>")).1.consume_next_submit (.jstr "p5")).2 =
      .ok (aerase sampleSubmitC5 "page_class") ∧
    alookup (aerase sampleSubmitC5 "page_class") "page_class" = none ∧
    aerase sampleSubmitC5 "page_class" =
      sampleSubmitC5.filter (fun kv => decide (kv.1 ≠ "page_class")) :=
  round_trip_strips_page_class sampleWorkerC5 (.jstr "p5") (.jstr "/pg") (.jstr "<html/>")
    ⟨.jstr "", .jstr "", [sampleSubmitC5]⟩
    sampleSubmitC5 [] (.jstr "Cls")
    rfl rfl rfl (by decide) rfl

/-- C6: with an exhausted generator, `prepare_next_submit` stores and
returns the empty placeholder instead of raising, `consume_next_submit`
hands the placeholder back, and `get_next_post_data` turns it into the
terminal `StopIteration` signal instead of a payload. -/
theorem exhausted_generator_empty_placeholder (w : Worker) (pc p h : JVal) (bot : PBot)
    (hb : alookup w.browser_bots pc = some bot)
    (hc : alookup w.prepared_submits pc = none)
    (hs : bot.submits = []) :
    (w.prepare_next_submit pc p h).2 = .ok [] ∧
    alookup (w.prepare_next_submit pc p h).1.prepared_submits pc = some [] ∧
    ((w.prepare_next_submit pc p h).1.consume_next_submit pc).2 = .ok [] ∧
    get_next_post_data [] = .raised (.stopIteration "No more submits") := by
  have h1 := prepare_exhausted w pc p h bot hb hc hs
  rw [h1]
  refine ⟨rfl, ?_, ?_, rfl⟩
  · exact alookup_aset_self _ _ _
  · have hcs := consume_entry
      { w with browser_bots := aset w.browser_bots pc ⟨p, h, bot.submits⟩,
               prepared_submits := aset w.prepared_submits pc [] }
      pc [] (alookup_aset_self _ _ _)
    rw [hcs]
    rfl

/-- Worker with one loaded bot for `z9` whose generator is exhausted,
used to witness the sequence-exhausted path. -/
def sampleWorkerC6 : Worker :=
  ⟨[], [(.jstr "z9", ⟨.jstr "", .jstr "", []⟩)], []⟩

theorem exhausted_generator_empty_placeholder_witness :
    (sampleWorkerC6.prepare_next_submit (.jstr "z9") (.jstr "/pg") (.jstr "<html/>")).2 =
      .ok [] ∧
    alookup (sampleWorkerC6.prepare_next_submit
        (.jstr "z9") (.jstr "/pg") (.jstr "<html/>")).1.prepared_submits (.jstr "z9") =
      some [] ∧
    ((sampleWorkerC6.prepare_next_submit
        (.jstr "z9") (.jstr "/pg") (.jstr "<html/>")).1.consume_next_submit (.jstr "z9")).2 =
      .ok [] ∧
    get_next_post_data [] = .raised (.stopIteration "No more submits") :=
  exhausted_generator_empty_placeholder sampleWorkerC6 (.jstr "z9")
    (.jstr "/pg") (.jstr "<html/>") ⟨.jstr "", .jstr "", []⟩ rfl rfl rfl

/-- C10: the tag-stripping asymmetry.  When the generator yields a
descriptor with no `page_class` key, `prepare_next_submit` pops it
unconditionally and so raises a `KeyError` (after the generator has
already advanced), caches nothing, and over the wire the receive loop
answers with a `response_error` envelope; `consume_next_submit`, by
contrast, strips the key with a default and succeeds on an entry that
lacks it. -/
theorem prepare_pop_tag_asymmetry (w : Worker) (pc p h rkv : JVal) (bot : PBot)
    (s : Dict) (rest : List Dict)
    (hb : alookup w.browser_bots pc = some bot)
    (hc : alookup w.prepared_submits pc = none)
    (hs : bot.submits = s :: rest)
    (hp : alookup s "page_class" = none) :
    (w.prepare_next_submit pc p h).2 = .raised (.keyError (.jstr "page_class")) ∧
    (w.prepare_next_submit pc p h).1.prepared_submits = w.prepared_submits ∧
    (alookup (w.prepare_next_submit pc p h).1.browser_bots pc).map PBot.submits =
      some rest ∧
    (w.handleMessage (prepareMsg pc p h rkv)).payloadOf =
      some [("response_error", .jstr (reprExn (.keyError (.jstr "page_class")))),
            ("traceback",
             .jstr ("Traceback: " ++ reprExn (.keyError (.jstr "page_class"))))] ∧
    Worker.consume_next_submit
        { w with prepared_submits := aset w.prepared_submits pc s } pc =
      ({ w with prepared_submits := aerase (aset w.prepared_submits pc s) pc },
       .ok s) := by
  have h1 := prepare_missing_page_class w pc p h bot s rest hb hc hs hp
  refine ⟨by rw [h1], by rw [h1], ?_, ?_, ?_⟩
  · rw [h1]
    dsimp only
    rw [alookup_aset_self]
    rfl
  · have hmsg : w.handleMessage (prepareMsg pc p h rkv) =
        .pushed (w.prepare_next_submit pc p h).1 (.atom rkv)
          (encodeRetval (w.prepare_next_submit pc p h).2) := rfl
    rw [hmsg, h1]
    rfl
  · have hcs := consume_entry
      { w with prepared_submits := aset w.prepared_submits pc s } pc s
      (alookup_aset_self _ _ _)
    rw [hcs, aerase_of_lookup_none s _ hp]

/-- A submission descriptor with no `page_class` tag. -/
def sampleSubmitC10 : Dict := [("post_data", JVal.jstr "x")]

/-- Worker with one loaded bot for `q1` whose generator will yield the
untagged descriptor. -/
def sampleWorkerC10 : Worker :=
  ⟨[], [(.jstr "q1", ⟨.jstr "", .jstr "", [sampleSubmitC10]⟩)], []⟩

theorem prepare_pop_tag_asymmetry_witness :
    (sampleWorkerC10.prepare_next_submit (.jstr "q1") (.jstr "/pg") (.jstr "<html/>")).2 =
      .raised (.keyError (.jstr "page_class")) ∧
    (sampleWorkerC10.prepare_next_submit
        (.jstr "q1") (.jstr "/pg") (.jstr "<html/>")).1.prepared_submits =
      sampleWorkerC10.prepared_submits ∧
    (alookup (sampleWorkerC10.prepare_next_submit
        (.jstr "q1") (.jstr "/pg") (.jstr "<html/>")).1.browser_bots
        (.jstr "q1")).map PBot.submits = some [] ∧
    (sampleWorkerC10.handleMessage
        (prepareMsg (.jstr "q1") (.jstr "/pg") (.jstr "<html/>") (.jstr "rk10"))).payloadOf =
      some [("response_error", .jstr (reprExn (.keyError (.jstr "page_class")))),
            ("traceback",
             .jstr ("Traceback: " ++ reprExn (.keyError (.jstr "page_class"))))] ∧
    Worker.consume_next_submit
        { sampleWorkerC10 with
            prepared_submits :=
              aset sampleWorkerC10.prepared_submits (.jstr "q1") sampleSubmitC10 }
        (.jstr "q1") =
      ({ sampleWorkerC10 with
          prepared_submits :=
            aerase (aset sampleWorkerC10.prepared_submits (.jstr "q1") sampleSubmitC10)
              (.jstr "q1") },
       .ok sampleSubmitC10) :=
  prepare_pop_tag_asymmetry sampleWorkerC10 (.jstr "q1") (.jstr "/pg") (.jstr "<html/>")
    (.jstr "rk10") ⟨.jstr "", .jstr "", [sampleSubmitC10]⟩ sampleSubmitC10 []
    rfl rfl rfl rfl

/-- C1: duplicate `prepare_next_submit` requests are idempotent.  If a
client has an active session and a first `prepare_next_submit` call
returned normally, a second call without an intervening
`consume_next_submit` observes the existing cache entry: it returns the
empty acknowledgement, leaves the whole submission cache (in particular
the one entry for this client) unchanged, and does not advance the
generator again. -/
theorem prepare_duplicate_request_idempotent (w w1 : Worker)
    (pc p h p2 h2 : JVal) (bot : PBot) (v : Dict)
    (hb : alookup w.browser_bots pc = some bot)
    (h1 : w.prepare_next_submit pc p h = (w1, .ok v)) :
    (w1.prepare_next_submit pc p2 h2).2 = .ok [] ∧
    (w1.prepare_next_submit pc p2 h2).1.prepared_submits = w1.prepared_submits ∧
    (alookup (w1.prepare_next_submit pc p2 h2).1.browser_bots pc).map PBot.submits =
      (alookup w1.browser_bots pc).map PBot.submits := by
  rcases hcache : alookup w.prepared_submits pc with _ | entry
  · rcases hsub : bot.submits with _ | ⟨s, rest⟩
    · have he1 := prepare_exhausted w pc p h bot hb hcache hsub
      rw [he1] at h1
      have hw1 : w1 = { w with browser_bots := aset w.browser_bots pc ⟨p, h, bot.submits⟩,
                               prepared_submits := aset w.prepared_submits pc [] } :=
        (congrArg Prod.fst h1).symm
      subst hw1
      have hb2 : alookup (aset w.browser_bots pc ⟨p, h, bot.submits⟩) pc =
          some ⟨p, h, bot.submits⟩ := alookup_aset_self _ _ _
      have hc2 : alookup (aset w.prepared_submits pc []) pc = some [] :=
        alookup_aset_self _ _ _
      have he2 := prepare_cache_hit
        { w with browser_bots := aset w.browser_bots pc ⟨p, h, bot.submits⟩,
                 prepared_submits := aset w.prepared_submits pc [] }
        pc p2 h2 ⟨p, h, bot.submits⟩ [] hb2 hc2
      rw [he2]
      refine ⟨rfl, rfl, ?_⟩
      dsimp only
      rw [alookup_aset_self, hb2]
      rfl
    · rcases hpc : alookup s "page_class" with _ | tag
      · have he1 := prepare_missing_page_class w pc p h bot s rest hb hcache hsub hpc
        rw [he1] at h1
        simp only [Prod.mk.injEq] at h1
        exact absurd h1.2 (by simp)
      · have he1 := prepare_yield w pc p h bot s rest tag hb hcache hsub hpc
        rw [he1] at h1
        have hw1 : w1 = { w with
            browser_bots :=
              aset (aset w.browser_bots pc ⟨p, h, bot.submits⟩) pc ⟨p, h, rest⟩,
            prepared_submits := aset w.prepared_submits pc (aerase s "page_class") } :=
          (congrArg Prod.fst h1).symm
        subst hw1
        have hb2 : alookup (aset (aset w.browser_bots pc ⟨p, h, bot.submits⟩) pc
            ⟨p, h, rest⟩) pc = some ⟨p, h, rest⟩ := alookup_aset_self _ _ _
        have hc2 : alookup (aset w.prepared_submits pc (aerase s "page_class")) pc =
            some (aerase s "page_class") := alookup_aset_self _ _ _
        have he2 := prepare_cache_hit
          { w with
              browser_bots :=
                aset (aset w.browser_bots pc ⟨p, h, bot.submits⟩) pc ⟨p, h, rest⟩,
              prepared_submits := aset w.prepared_submits pc (aerase s "page_class") }
          pc p2 h2 ⟨p, h, rest⟩ (aerase s "page_class") hb2 hc2
        rw [he2]
        refine ⟨rfl, rfl, ?_⟩
        dsimp only
        rw [alookup_aset_self, hb2]
        rfl
  · have he1 := prepare_cache_hit w pc p h bot entry hb hcache
    rw [he1] at h1
    have hw1 : w1 =
        { w with browser_bots := aset w.browser_bots pc ⟨p, h, bot.submits⟩ } :=
      (congrArg Prod.fst h1).symm
    subst hw1
    have hb2 : alookup (aset w.browser_bots pc ⟨p, h, bot.submits⟩) pc =
        some ⟨p, h, bot.submits⟩ := alookup_aset_self _ _ _
    have he2 := prepare_cache_hit
      { w with browser_bots := aset w.browser_bots pc ⟨p, h, bot.submits⟩ }
      pc p2 h2 ⟨p, h, bot.submits⟩ entry hb2 hcache
    rw [he2]
    refine ⟨rfl, rfl, ?_⟩
    dsimp only
    rw [alookup_aset_self, hb2]
    rfl

/-- Worker with one loaded bot for `abc123` and one tagged descriptor
pending, used to witness idempotence of duplicate prepares. -/
def sampleWorkerC1 : Worker :=
  ⟨[],
   [(.jstr "abc123",
     ⟨.jstr "", .jstr "",
      [[("page_class", JVal.jstr "Cls"), ("post_data", JVal.jstr "f=1")]]⟩)],
   []⟩

/-- The worker state after the first prepare call of the C1 witness. -/
def sampleWorkerC1After : Worker :=
  (sampleWorkerC1.prepare_next_submit
    (.jstr "abc123") (.jstr "/page1") (.jstr "<html/>")).1

theorem prepare_duplicate_request_idempotent_witness :
    (sampleWorkerC1After.prepare_next_submit
        (.jstr "abc123") (.jstr "/page1") (.jstr "<html/>")).2 = .ok [] ∧
    (sampleWorkerC1After.prepare_next_submit
        (.jstr "abc123") (.jstr "/page1") (.jstr "<html/>")).1.prepared_submits =
      sampleWorkerC1After.prepared_submits ∧
    (alookup (sampleWorkerC1After.prepare_next_submit
        (.jstr "abc123") (.jstr "/page1") (.jstr "<html/>")).1.browser_bots
        (.jstr "abc123")).map PBot.submits =
      (alookup sampleWorkerC1After.browser_bots (.jstr "abc123")).map PBot.submits :=
  prepare_duplicate_request_idempotent sampleWorkerC1 sampleWorkerC1After
    (.jstr "abc123") (.jstr "/page1") (.jstr "<html/>") (.jstr "/page1") (.jstr "<html/>")
    ⟨.jstr "", .jstr "",
     [[("page_class", JVal.jstr "Cls"), ("post_data", JVal.jstr "f=1")]]⟩
    [("post_data", JVal.jstr "f=1")] rfl rfl
